import Mathlib

/-!
Shallow embedding of the OIDC login client (internal/oidc/client.go):
the `Auth` (BeginLogin) and `Callback` (CompleteLogin) HTTP handlers and
the `DumpToken` diagnostic operation.

Handlers are embedded as pure functions from the request (and the external
capabilities the client object carries: the OAuth2 code exchange, the ID
token verifier, and the application completion hook, all modelled as
oracle function fields) to the ordered list of observable HTTP events the
handler emits: cookies set, network calls made, hook invocation, and the
single terminal response.  The event order of the list is the order of the
corresponding statements in the Go source, so temporal claims ("before any
token exchange") become claims about list membership and position.
-/

/-- net/http status code `http.StatusFound`. -/
def StatusFound : Nat := 302

/-- net/http status code `http.StatusBadRequest`. -/
def StatusBadRequest : Nat := 400

/-- net/http status code `http.StatusForbidden`. -/
def StatusForbidden : Nat := 403

/-- net/http status code `http.StatusInternalServerError`. -/
def StatusInternalServerError : Nat := 500

/-- The age, in seconds, of the state cookie during OIDC login
(`DefaultLoginTimeout`, client.go line 20). -/
def DefaultLoginTimeout : Nat := 600

/-- The URL path cookies from this package are valid for
(`DefaultCookiePath`, client.go line 23). -/
def DefaultCookiePath : String := "/api/auth"

/-- An `http.Cookie` as set by `http.SetCookie` in the Auth handler.
`expires` is an absolute time in seconds (Go: `time.Now().Add(...)`, with
`now` passed explicitly to the embedding); `maxAge` is in seconds. -/
structure Cookie where
  name : String
  value : String
  path : String
  expires : Nat
  maxAge : Nat
  secure : Bool
  httpOnly : Bool
deriving Repr, DecidableEq

/-- A terminal HTTP response: either `http.Error(w, msg, status)` or
`http.Redirect(w, r, url, status)`. -/
inductive Response where
  | httpError (msg : String) (status : Nat)
  | redirect (url : String) (status : Nat)
deriving Repr, DecidableEq

/-- An `oauth2.Token` as returned by `oauthConfig.Exchange` and consumed by
`DumpToken`.  `idTokenExtra` models `token.Extra("id_token").(string)`:
`none` when the extra field is absent or not a string (the type assertion
fails). -/
structure OAuth2Token where
  accessToken : String
  tokenType : String
  refreshToken : String
  expiry : Nat
  idTokenExtra : Option String
deriving Repr, DecidableEq

/-- A verified `gooidc.IDToken`.  `claims` models `idToken.Claims(&v)`:
`Except.ok` carries the raw claims JSON, `Except.error` the error message
returned when extraction fails. -/
structure IDToken where
  subject : String
  claims : Except String String
deriving Repr

/-- The sentinel errors compared by identity in the Callback handler
(`ErrMissingCSCUserName`, `ErrMissingOrganization`) plus any other error
value the `OnLogin` hook may return. -/
inductive HookErr where
  | missingCSCUserName
  | missingOrganization
  | other (msg : String)
deriving Repr, DecidableEq

/-- The `OidcClient` configuration, with its discovery-derived network
capabilities modelled as oracle function fields:
`authCodeURL state nonce` is `oauthConfig.AuthCodeURL(state, gooidc.Nonce(nonce))`;
`exchange code` is `oauthConfig.Exchange(ctx, code)` (`none` = error);
`verify raw` is `oidcVerifier.Verify(ctx, raw)` (`none` = verification error);
`onLogin` is the completion hook (`none` = nil hook; the hook receives the
OAuth2 token, nil on the dev path, and the verified ID token, and returns
`none` for a nil error). -/
structure OidcClient where
  frontendUrl : String
  allowDevLogin : Bool
  redirectURL : String
  authCodeURL : String → String → String
  exchange : String → Option OAuth2Token
  verify : String → Option IDToken
  onLogin : Option (Option OAuth2Token → IDToken → Option HookErr)

/-- An incoming HTTP request as the two handlers observe it.
`stateCookie` is the result of `r.Cookie("state")`: `none` when the browser
sent no such cookie (in particular after the browser expired it).  The
query fields model `r.URL.Query().Get(...)`, which yields `""` for an
absent parameter; `rawQuery` is `r.URL.RawQuery`.
`presentedAge` is ghost metadata for specification purposes only: the
number of seconds elapsed since the state cookie was issued.  The Go
handler has no access to such information (the cookie header carries only
the value), so no definition below reads this field. -/
structure Request where
  stateCookie : Option String
  stateParam : String
  codeParam : String
  tokenParam : String
  rawQuery : String
  presentedAge : Nat

/-- Observable events of one Auth (BeginLogin) handler execution, in
program order. -/
inductive AuthEvent where
  | cookieSet (c : Cookie)
  | responded (r : Response)
deriving Repr, DecidableEq

/-- The Auth handler (client.go lines 119-158).  `randomState` models
`randomkey.Random16()` followed by `key.Base64()`: `none` when random
generation fails, otherwise the base64 state string.  `now` is the current
time in seconds (`time.Now()`). -/
def auth (client : OidcClient) (randomState : Option String) (now : Nat)
    (req : Request) : List AuthEvent :=
  match randomState with
  | none => [.responded (.httpError "can\x27t create state parameter" StatusInternalServerError)]
  | some state =>
    .cookieSet { name := "state", value := state, path := DefaultCookiePath,
                 expires := now + DefaultLoginTimeout, maxAge := DefaultLoginTimeout,
                 secure := true, httpOnly := true } ::
    if req.tokenParam ≠ "" then
      if !client.allowDevLogin then
        [.responded (.httpError "access denied" StatusForbidden)]
      else
        [.responded (.redirect
          (client.redirectURL ++ "?token=" ++ req.tokenParam ++ "&state=" ++ state)
          StatusFound)]
    else
      [.responded (.redirect (client.authCodeURL state req.rawQuery) StatusFound)]

/-- Observable events of one Callback (CompleteLogin) handler execution, in
program order: the code-for-token exchange network call, the ID token
verification call, the completion hook invocation, and the terminal
response. -/
inductive CbEvent where
  | exchangeCalled (code : String)
  | verifyCalled (raw : String)
  | hookCalled
  | responded (r : Response)
deriving Repr, DecidableEq

/-- Callback handler, lines 207-238: verify the raw ID token, invoke the
`OnLogin` hook if set, dispatch on its result, and issue the final
redirect.  `oauth2Token` is `none` on the dev-token path. -/
def verifyAndFinish (client : OidcClient) (rawIDToken : String)
    (oauth2Token : Option OAuth2Token) : List CbEvent :=
  .verifyCalled rawIDToken ::
  match client.verify rawIDToken with
  | none => [.responded (.httpError "id token verification failed" StatusInternalServerError)]
  | some idToken =>
    match client.onLogin with
    | none => [.responded (.redirect client.frontendUrl StatusFound)]
    | some hook =>
      .hookCalled ::
      match hook oauth2Token idToken with
      | some .missingCSCUserName =>
        [.responded (.redirect (client.frontendUrl ++ "?missingcsc=1") StatusFound)]
      | some .missingOrganization =>
        [.responded (.redirect (client.frontendUrl ++ "?missingorg=1") StatusFound)]
      | some (.other _) =>
        [.responded (.httpError "Login failed" StatusInternalServerError)]
      | none => [.responded (.redirect client.frontendUrl StatusFound)]

/-- Callback handler, lines 184-238: everything after the state check has
passed - token acquisition (dev-token branch or code exchange branch),
then verification and completion. -/
def acquireAndFinish (client : OidcClient) (req : Request) : List CbEvent :=
  if req.tokenParam ≠ "" then
    if !client.allowDevLogin then
      [.responded (.httpError "access denied" StatusForbidden)]
    else
      verifyAndFinish client req.tokenParam none
  else
    .exchangeCalled req.codeParam ::
    match client.exchange req.codeParam with
    | none => [.responded (.httpError "failed to exchange code for token" StatusInternalServerError)]
    | some tok =>
      match tok.idTokenExtra with
      | none => [.responded (.httpError "IdP did not sent an id token" StatusInternalServerError)]
      | some raw => verifyAndFinish client raw (some tok)

/-- The Callback handler (client.go lines 162-239): cookie presence check,
state comparison, then token acquisition and completion. -/
def callback (client : OidcClient) (req : Request) : List CbEvent :=
  match req.stateCookie with
  | none => [.responded (.httpError "login session expired" StatusBadRequest)]
  | some cookieVal =>
    if req.stateParam ≠ cookieVal then
      [.responded (.httpError "state did not match" StatusBadRequest)]
    else
      acquireAndFinish client req

/-- The JSON document `DumpToken` serializes (the anonymous struct at
lines 252-255 flattened to its serialized string and numeric leaves): the
`oauth2.Token` json fields plus the raw identity-token claims. -/
structure TokenDump where
  access_token : String
  token_type : String
  refresh_token : String
  expiry : Nat
  idTokenClaims : String
deriving Repr, DecidableEq

/-- The string values that appear in the serialized JSON document (the
data content; the key names and punctuation are fixed text). -/
def TokenDump.strings (d : TokenDump) : List String :=
  [d.access_token, d.token_type, d.refresh_token, d.idTokenClaims]

/-- Result of `DumpToken`: the written JSON document, or an error
response. -/
inductive DumpResult where
  | json (doc : TokenDump)
  | httpError (msg : String) (status : Nat)
deriving Repr, DecidableEq

/-- Lines 243-250 of `DumpToken`: censor the access and refresh tokens. -/
def censorToken (token : OAuth2Token) : OAuth2Token :=
  let token := if token.accessToken ≠ "" then { token with accessToken := "***" } else token
  if token.refreshToken ≠ "" then { token with refreshToken := "***" } else token

/-- The `DumpToken` operation (client.go lines 241-272).  Go mutates `token` through the
pointer; the embedding returns the caller-visible token value after the
call as the first component.  `json.MarshalIndent` cannot fail here: when
`idToken.Claims` into a `*json.RawMessage` succeeded the raw message is
valid JSON and the remaining fields are plain strings and numbers, so the
marshal branch at lines 263-268 is total in this model. -/
def dumpToken (token : OAuth2Token) (idToken : IDToken) : OAuth2Token × DumpResult :=
  let token := censorToken token
  match idToken.claims with
  | .error e => (token, .httpError e StatusInternalServerError)
  | .ok claims =>
    (token, .json { access_token := token.accessToken, token_type := token.tokenType,
                    refresh_token := token.refreshToken, expiry := token.expiry,
                    idTokenClaims := claims })

/-- A sample client configuration: dev login disabled, failing oracles,
nil hook.  Used to instantiate universally quantified theorems. -/
def sampleClient : OidcClient :=
  { frontendUrl := "https://qvain.example/login", allowDevLogin := false,
    redirectURL := "https://qvain.example/api/auth/cb",
    authCodeURL := fun state nonce =>
      "https://idp.example/authorize?state=" ++ state ++ "&nonce=" ++ nonce,
    exchange := fun _ => none, verify := fun _ => none, onLogin := none }

/-- A sample request with no cookie and no query parameters. -/
def sampleRequest : Request :=
  { stateCookie := none, stateParam := "", codeParam := "", tokenParam := "",
    rawQuery := "", presentedAge := 0 }

/-- C5: a callback request with no state cookie is rejected 400 "login
session expired", whatever the query parameters are (the trace is exactly
that one response: nothing else happens). -/
theorem C5_no_cookie_session_expired (client : OidcClient) (req : Request)
    (h : req.stateCookie = none) :
    callback client req
      = [.responded (.httpError "login session expired" StatusBadRequest)] := by
  unfold callback
  rw [h]

/-- C5 witness: the theorem applied at a concrete cookieless request. -/
theorem C5_no_cookie_session_expired_witness :
    callback sampleClient sampleRequest
      = [.responded (.httpError "login session expired" StatusBadRequest)] :=
  C5_no_cookie_session_expired sampleClient sampleRequest rfl

/-- C1: the CSRF check precedes the IdP round trip.  When the state cookie
is present but differs from the `state` query parameter, the handler's
whole trace is the single 400 "state did not match" response - in
particular no exchange and no verification call is made; and conversely an
exchange call can appear in the trace only when the cookie was found
present with a value equal to the query parameter. -/
theorem C1_state_checked_before_exchange (client : OidcClient) (req : Request) :
    (∀ v, req.stateCookie = some v → req.stateParam ≠ v →
      callback client req = [.responded (.httpError "state did not match" StatusBadRequest)]
      ∧ (∀ code, CbEvent.exchangeCalled code ∉ callback client req)
      ∧ (∀ raw, CbEvent.verifyCalled raw ∉ callback client req)) ∧
    (∀ code, CbEvent.exchangeCalled code ∈ callback client req →
      req.stateCookie = some req.stateParam) := by
  constructor
  · intro v hv hne
    have htr : callback client req
        = [.responded (.httpError "state did not match" StatusBadRequest)] := by
      unfold callback
      rw [hv]
      simp [hne]
    refine ⟨htr, ?_, ?_⟩ <;> intro x <;> rw [htr] <;> simp
  · intro code hmem
    cases hv : req.stateCookie with
    | none =>
      unfold callback at hmem
      rw [hv] at hmem
      simp at hmem
    | some v =>
      by_cases hne : req.stateParam = v
      · rw [hne]
      · unfold callback at hmem
        rw [hv] at hmem
        simp [hne] at hmem

/-- C1 witness: the theorem applied at a concrete mismatching request. -/
theorem C1_state_checked_before_exchange_witness :
    callback sampleClient
      { sampleRequest with stateCookie := some "cookieval", stateParam := "otherval" }
      = [.responded (.httpError "state did not match" StatusBadRequest)] :=
  ((C1_state_checked_before_exchange sampleClient
      { sampleRequest with stateCookie := some "cookieval", stateParam := "otherval" }).1
    "cookieval" rfl (by decide)).1

/-- C9: the state comparison is plain string equality with no
non-emptiness requirement: a present cookie with empty value together with
an absent `state` parameter (read as the empty string) passes the check,
and the handler continues into the token-acquisition code. -/
theorem C9_empty_state_comparison_passes (client : OidcClient) (req : Request)
    (hc : req.stateCookie = some "") (hp : req.stateParam = "") :
    callback client req = acquireAndFinish client req := by
  unfold callback
  rw [hc]
  simp [hp]

/-- A client whose oracles all succeed: the exchange returns a token
carrying an embedded raw ID token, verification succeeds, and the hook is
nil. -/
def happyClient : OidcClient :=
  { frontendUrl := "https://qvain.example/login", allowDevLogin := false,
    redirectURL := "https://qvain.example/api/auth/cb",
    authCodeURL := fun state nonce =>
      "https://idp.example/authorize?state=" ++ state ++ "&nonce=" ++ nonce,
    exchange := fun _ =>
      some { accessToken := "at", tokenType := "Bearer", refreshToken := "rt",
             expiry := 0, idTokenExtra := some "rawid" },
    verify := fun _ => some { subject := "user1", claims := .ok "null" },
    onLogin := none }

/-- A callback request whose state cookie matches the query parameter but
was issued 601 seconds ago - past the 600-second login timeout. -/
def staleRequest : Request :=
  { stateCookie := some "stale-state", stateParam := "stale-state",
    codeParam := "authcode", tokenParam := "", rawQuery := "", presentedAge := 601 }

/-- C3 counterexample: the Callback handler does not reject a state cookie
presented after the 600-second timeout.  At this concrete request the
cookie is presented 601 seconds after issuance and matches the `state`
parameter, and the handler - far from rejecting the request the way it
rejects a mismatch - performs the code exchange, verifies the token, and
redirects to the frontend. -/
theorem C3_counterexample :
    staleRequest.stateCookie = some staleRequest.stateParam ∧
    DefaultLoginTimeout < staleRequest.presentedAge ∧
    callback happyClient staleRequest
      = [.exchangeCalled "authcode", .verifyCalled "rawid",
         .responded (.redirect "https://qvain.example/login" StatusFound)] := by
  refine ⟨rfl, by decide, by decide⟩

/-- C3 amended: the Callback handler performs no server-side expiry check
at all - its behavior is independent of how long ago the state cookie was
issued.  State expiry is enforced only client-side, through the cookie's
`Expires`/`MaxAge` attributes set by the Auth handler: a conforming
browser stops presenting the cookie after 600 seconds, and the handler
then rejects the cookieless request with 400 "login session expired" (the
session-expired condition, not the mismatch condition). -/
theorem C3_no_server_side_expiry_check (client : OidcClient) (req : Request) (n m : Nat) :
    callback client { req with presentedAge := n }
      = callback client { req with presentedAge := m } := rfl

/-- C9 witness: the theorem applied at a concrete request with an
empty-valued cookie and no `state` parameter. -/
theorem C9_empty_state_comparison_passes_witness :
    callback sampleClient { sampleRequest with stateCookie := some "" }
      = acquireAndFinish sampleClient { sampleRequest with stateCookie := some "" } :=
  C9_empty_state_comparison_passes sampleClient
    { sampleRequest with stateCookie := some "" } rfl rfl

/-- C2: with dev login allowed, a callback carrying a non-empty `token`
parameter that fails verification never invokes the completion hook and
never issues any redirect; and when the state check passes, the trace is
exactly the verification call followed by the 500 "id token verification
failed" response - dev mode bypasses the IdP round trip (no exchange
event), never verification. -/
theorem C2_dev_token_never_bypasses_verification (client : OidcClient) (req : Request)
    (hdev : client.allowDevLogin = true) (htok : req.tokenParam ≠ "")
    (hver : client.verify req.tokenParam = none) :
    (CbEvent.hookCalled ∉ callback client req) ∧
    (∀ url s, CbEvent.responded (.redirect url s) ∉ callback client req) ∧
    (∀ v, req.stateCookie = some v → req.stateParam = v →
      callback client req
        = [.verifyCalled req.tokenParam,
           .responded (.httpError "id token verification failed" StatusInternalServerError)]) := by
  have hmain : ∀ v, req.stateCookie = some v → req.stateParam = v →
      callback client req
        = [.verifyCalled req.tokenParam,
           .responded (.httpError "id token verification failed" StatusInternalServerError)] := by
    intro v hc hp
    unfold callback
    rw [hc]
    simp only [hp, ne_eq, not_true_eq_false, if_false, ite_false]
    unfold acquireAndFinish
    rw [if_pos htok, hdev]
    simp only [Bool.not_true, Bool.false_eq_true, if_false, ite_false]
    unfold verifyAndFinish
    rw [hver]
  have htr : callback client req
        = [.responded (.httpError "login session expired" StatusBadRequest)]
      ∨ callback client req
        = [.responded (.httpError "state did not match" StatusBadRequest)]
      ∨ callback client req
        = [.verifyCalled req.tokenParam,
           .responded (.httpError "id token verification failed" StatusInternalServerError)] := by
    cases hc : req.stateCookie with
    | none =>
      left
      unfold callback
      rw [hc]
    | some v =>
      by_cases hp : req.stateParam = v
      · right; right
        exact hmain v hc hp
      · right; left
        unfold callback
        rw [hc]
        simp [hp]
  refine ⟨?_, ?_, hmain⟩
  · rcases htr with h | h | h <;> rw [h] <;> simp
  · intro url s
    rcases htr with h | h | h <;> rw [h] <;> simp

/-- A client with dev login enabled whose verifier rejects everything. -/
def devRejectClient : OidcClient :=
  { sampleClient with allowDevLogin := true, verify := fun _ => none }

/-- A matching-state callback request carrying a dev token. -/
def devTokenRequest : Request :=
  { sampleRequest with
    stateCookie := some "st", stateParam := "st", tokenParam := "badtoken" }

/-- C2 witness: the theorem applied at a concrete unverifiable dev-token
request with matching state. -/
theorem C2_dev_token_never_bypasses_verification_witness :
    callback devRejectClient devTokenRequest
      = [.verifyCalled "badtoken",
         .responded (.httpError "id token verification failed" StatusInternalServerError)] :=
  (C2_dev_token_never_bypasses_verification devRejectClient devTokenRequest
    rfl (by decide) rfl).2.2 "st" rfl rfl

/-- C6: with dev login disabled, a request carrying a non-empty `token`
parameter is rejected 403 "access denied" on both endpoints: the Auth
handler (after setting the state cookie) responds 403 and issues no
redirect, and the Callback handler, once the state check passes, responds
403; moreover the Callback trace never contains a verification call for
any such request, whatever the state check's outcome. -/
theorem C6_dev_login_disabled_rejected (client : OidcClient) (req : Request)
    (hdev : client.allowDevLogin = false) (htok : req.tokenParam ≠ "") :
    (∀ state now, auth client (some state) now req
      = [.cookieSet { name := "state", value := state, path := DefaultCookiePath,
                      expires := now + DefaultLoginTimeout, maxAge := DefaultLoginTimeout,
                      secure := true, httpOnly := true },
         .responded (.httpError "access denied" StatusForbidden)]) ∧
    (∀ raw, CbEvent.verifyCalled raw ∉ callback client req) ∧
    (∀ v, req.stateCookie = some v → req.stateParam = v →
      callback client req = [.responded (.httpError "access denied" StatusForbidden)]) := by
  have hmain : ∀ v, req.stateCookie = some v → req.stateParam = v →
      callback client req = [.responded (.httpError "access denied" StatusForbidden)] := by
    intro v hc hp
    unfold callback
    rw [hc]
    simp only [hp, ne_eq, not_true_eq_false, if_false, ite_false]
    unfold acquireAndFinish
    rw [if_pos htok, hdev]
    simp
  refine ⟨?_, ?_, hmain⟩
  · intro state now
    simp only [auth]
    rw [if_pos htok, hdev]
    simp
  · intro raw
    cases hc : req.stateCookie with
    | none =>
      unfold callback
      rw [hc]
      simp
    | some v =>
      by_cases hp : req.stateParam = v
      · rw [hmain v hc hp]
        simp
      · unfold callback
        rw [hc]
        simp [hp]

/-- A matching-state request carrying a dev token, against the sample
client (dev login disabled). -/
def deniedTokenRequest : Request :=
  { sampleRequest with
    stateCookie := some "st", stateParam := "st", tokenParam := "devtoken" }

/-- C6 witness: the theorem applied at concrete dev-token requests on both
endpoints, with dev login disabled. -/
theorem C6_dev_login_disabled_rejected_witness :
    auth sampleClient (some "newstate") 1000 deniedTokenRequest
      = [.cookieSet { name := "state", value := "newstate", path := DefaultCookiePath,
                      expires := 1600, maxAge := DefaultLoginTimeout,
                      secure := true, httpOnly := true },
         .responded (.httpError "access denied" StatusForbidden)] ∧
    callback sampleClient deniedTokenRequest
      = [.responded (.httpError "access denied" StatusForbidden)] :=
  ⟨(C6_dev_login_disabled_rejected sampleClient deniedTokenRequest
      rfl (by decide)).1 "newstate" 1000,
   (C6_dev_login_disabled_rejected sampleClient deniedTokenRequest
      rfl (by decide)).2.2 "st" rfl rfl⟩

/-- C4: after successful verification the Callback handler dispatches on
the completion hook's result: the missing-CSC-username sentinel redirects
302 to exactly frontendURL followed by "?missingcsc=1", the
missing-organization sentinel to exactly frontendURL followed by
"?missingorg=1", any other error yields 500 "Login failed" (no redirect
event appears in the trace), and a nil error redirects 302 to the plain
frontendURL.  The trace also shows the response is only emitted after the
hook invocation: nothing is written to the response before the hook
completes. -/
theorem C4_hook_result_dispatch (client : OidcClient) (req : Request) (v raw : String)
    (tok : OAuth2Token) (idt : IDToken)
    (hook : Option OAuth2Token → IDToken → Option HookErr)
    (hc : req.stateCookie = some v) (hp : req.stateParam = v)
    (htok : req.tokenParam = "")
    (hex : client.exchange req.codeParam = some tok)
    (hextra : tok.idTokenExtra = some raw)
    (hver : client.verify raw = some idt)
    (hhook : client.onLogin = some hook) :
    callback client req
      = [.exchangeCalled req.codeParam, .verifyCalled raw, CbEvent.hookCalled,
         .responded (match hook (some tok) idt with
           | some .missingCSCUserName =>
               .redirect (client.frontendUrl ++ "?missingcsc=1") StatusFound
           | some .missingOrganization =>
               .redirect (client.frontendUrl ++ "?missingorg=1") StatusFound
           | some (.other _) => .httpError "Login failed" StatusInternalServerError
           | none => .redirect client.frontendUrl StatusFound)] := by
  unfold callback
  rw [hc]
  simp only [hp, ne_eq, not_true_eq_false, if_false, ite_false]
  unfold acquireAndFinish
  rw [if_neg (by simp [htok])]
  simp only [hex, hextra]
  unfold verifyAndFinish
  simp only [hver, hhook]
  rcases hr : hook (some tok) idt with _ | e
  · rfl
  · cases e <;> rfl

/-- A client whose exchange succeeds, whose verifier accepts, and whose
hook reports the missing-organization condition. -/
def missingOrgClient : OidcClient :=
  { happyClient with
    onLogin := some fun _ _ => some .missingOrganization }

/-- A matching-state callback request on the standard (code) path. -/
def codeRequest : Request :=
  { sampleRequest with
    stateCookie := some "st", stateParam := "st", codeParam := "code1" }

/-- C4 witness: the theorem applied at a concrete request whose hook
reports the missing-organization condition; the handler redirects to
exactly frontendURL?missingorg=1. -/
theorem C4_hook_result_dispatch_witness :
    callback missingOrgClient codeRequest
      = [.exchangeCalled "code1", .verifyCalled "rawid", CbEvent.hookCalled,
         .responded (.redirect "https://qvain.example/login?missingorg=1" StatusFound)] :=
  (C4_hook_result_dispatch missingOrgClient codeRequest "st" "rawid"
    { accessToken := "at", tokenType := "Bearer", refreshToken := "rt",
      expiry := 0, idTokenExtra := some "rawid" }
    { subject := "user1", claims := .ok "null" }
    (fun _ _ => some .missingOrganization)
    rfl rfl rfl rfl rfl rfl rfl).trans (by decide)

/-- C7: whenever random state generation succeeds, the Auth handler's
trace is exactly one state cookie set, followed by the terminal response:
the cookie has name "state", path "/api/auth", the Secure and HttpOnly
flags, MaxAge 600 seconds and absolute expiry 600 seconds from now.  When
random generation fails, the trace is the single 500 response and no
cookie is set. -/
theorem C7_auth_state_cookie (client : OidcClient) (req : Request) (now : Nat) :
    (∀ state, ∃ r : Response,
      auth client (some state) now req
        = [.cookieSet { name := "state", value := state, path := "/api/auth",
                        expires := now + 600, maxAge := 600,
                        secure := true, httpOnly := true },
           .responded r]) ∧
    auth client none now req
      = [.responded (.httpError "can\x27t create state parameter" StatusInternalServerError)] := by
  constructor
  · intro state
    simp only [auth]
    by_cases ht : req.tokenParam ≠ ""
    · by_cases hd : client.allowDevLogin
      · exact ⟨.redirect
          (client.redirectURL ++ "?token=" ++ req.tokenParam ++ "&state=" ++ state)
          StatusFound, by simp [ht, hd, DefaultCookiePath, DefaultLoginTimeout]⟩
      · exact ⟨.httpError "access denied" StatusForbidden,
          by simp [ht, hd, DefaultCookiePath, DefaultLoginTimeout]⟩
    · exact ⟨.redirect (client.authCodeURL state req.rawQuery) StatusFound,
        by simp [ht, DefaultCookiePath, DefaultLoginTimeout]⟩
  · rfl

/-- Field-level description of `censorToken` (lines 243-250): access and
refresh token values are replaced by the marker when non-empty; the rest
of the token is untouched. -/
theorem censorToken_fields (t : OAuth2Token) :
    (censorToken t).accessToken = (if t.accessToken = "" then t.accessToken else "***") ∧
    (censorToken t).refreshToken = (if t.refreshToken = "" then t.refreshToken else "***") ∧
    (censorToken t).tokenType = t.tokenType ∧
    (censorToken t).expiry = t.expiry ∧
    (censorToken t).idTokenExtra = t.idTokenExtra := by
  unfold censorToken
  by_cases h1 : t.accessToken = "" <;> by_cases h2 : t.refreshToken = "" <;>
    simp [h1, h2]

/-- The caller-visible token value after `DumpToken` returns is the
censored token, on both the success and the claims-error path. -/
theorem dumpToken_fst (t : OAuth2Token) (i : IDToken) :
    (dumpToken t i).1 = censorToken t := by
  unfold dumpToken
  rcases h : i.claims with e | c <;> simp [h]

/-- The JSON document `DumpToken` writes when claims extraction succeeds. -/
theorem dumpToken_doc (t : OAuth2Token) (i : IDToken) (c : String)
    (h : i.claims = .ok c) :
    (dumpToken t i).2
      = .json { access_token := (censorToken t).accessToken,
                token_type := (censorToken t).tokenType,
                refresh_token := (censorToken t).refreshToken,
                expiry := (censorToken t).expiry, idTokenClaims := c } := by
  unfold dumpToken
  simp [h]

/-- C10: `DumpToken` mutates the caller's token in place (modelled as the
returned first component): after every call the access token is "***" if
it was non-empty and unchanged if empty, likewise the refresh token, and
every other field of the token is unchanged. -/
theorem C10_dumpToken_censors_in_place (token : OAuth2Token) (idToken : IDToken) :
    ((dumpToken token idToken).1).accessToken
        = (if token.accessToken = "" then token.accessToken else "***") ∧
    ((dumpToken token idToken).1).refreshToken
        = (if token.refreshToken = "" then token.refreshToken else "***") ∧
    ((dumpToken token idToken).1).tokenType = token.tokenType ∧
    ((dumpToken token idToken).1).expiry = token.expiry ∧
    ((dumpToken token idToken).1).idTokenExtra = token.idTokenExtra := by
  rw [dumpToken_fst]
  exact censorToken_fields token

/-- A token whose non-empty access token happens to be the redaction
marker itself. -/
def starToken : OAuth2Token :=
  { accessToken := "***", tokenType := "Bearer", refreshToken := "",
    expiry := 0, idTokenExtra := none }

/-- An ID token whose claims extraction yields the raw JSON "null". -/
def sampleIDToken : IDToken := { subject := "user1", claims := .ok "null" }

/-- C8 counterexample: the output of `DumpToken` can contain the literal
value of a non-empty input access token.  The redaction overwrites the
field with the fixed marker "***", so for the input access token "***"
(non-empty) the written document contains exactly that literal value
among its serialized strings. -/
theorem C8_counterexample :
    starToken.accessToken ≠ "" ∧
    (dumpToken starToken sampleIDToken).2
      = .json { access_token := "***", token_type := "Bearer", refresh_token := "",
                expiry := 0, idTokenClaims := "null" } ∧
    starToken.accessToken ∈
      TokenDump.strings { access_token := "***", token_type := "Bearer",
                          refresh_token := "", expiry := 0, idTokenClaims := "null" } := by
  refine ⟨by decide, by decide, by decide⟩

/-- C8 amended: in the document `DumpToken` writes, the access-token and
refresh-token fields hold the redaction marker "***" whenever the
corresponding input fields were non-empty; consequently a non-empty
access-token (resp. refresh-token) value never appears among the
document's serialized string values, provided it is not itself the marker
"***" and does not coincide with the other serialized content (the token
type or the claims JSON). -/
theorem C8_dump_redacts_secrets (token : OAuth2Token) (idToken : IDToken) (doc : TokenDump)
    (hw : (dumpToken token idToken).2 = .json doc) :
    (token.accessToken ≠ "" → doc.access_token = "***") ∧
    (token.refreshToken ≠ "" → doc.refresh_token = "***") ∧
    (token.accessToken ≠ "" → token.accessToken ≠ "***" →
      token.accessToken ≠ token.tokenType →
      (∀ c, idToken.claims = .ok c → token.accessToken ≠ c) →
      token.accessToken ∉ doc.strings) ∧
    (token.refreshToken ≠ "" → token.refreshToken ≠ "***" →
      token.refreshToken ≠ token.tokenType →
      (∀ c, idToken.claims = .ok c → token.refreshToken ≠ c) →
      token.refreshToken ∉ doc.strings) := by
  rcases h : idToken.claims with e | c
  · rw [show (dumpToken token idToken).2 = .httpError e StatusInternalServerError by
        unfold dumpToken; simp [h]] at hw
    exact absurd hw (by simp)
  · rw [dumpToken_doc token idToken c h] at hw
    simp only [DumpResult.json.injEq] at hw
    subst hw
    obtain ⟨hca, hcr, hct, _, _⟩ := censorToken_fields token
    refine ⟨?_, ?_, ?_, ?_⟩
    · intro ha
      simp only [hca, if_neg ha]
    · intro hr
      simp only [hcr, if_neg hr]
    · intro ha hstar htt hcl
      simp only [TokenDump.strings, hca, hcr, hct, List.mem_cons,
        List.not_mem_nil, or_false]
      push_neg
      refine ⟨?_, htt, ?_, hcl c rfl⟩
      · rw [if_neg ha]; exact hstar
      · by_cases hr : token.refreshToken = ""
        · rw [if_pos hr, hr]; exact ha
        · rw [if_neg hr]; exact hstar
    · intro hr hstar htt hcl
      simp only [TokenDump.strings, hca, hcr, hct, List.mem_cons,
        List.not_mem_nil, or_false]
      push_neg
      refine ⟨?_, htt, ?_, hcl c rfl⟩
      · by_cases ha : token.accessToken = ""
        · rw [if_pos ha, ha]; exact hr
        · rw [if_neg ha]; exact hstar
      · rw [if_neg hr]; exact hstar

/-- A token carrying ordinary secret values. -/
def secretToken : OAuth2Token :=
  { accessToken := "secret-access", tokenType := "Bearer",
    refreshToken := "secret-refresh", expiry := 0, idTokenExtra := none }

/-- C8 amended witness: the theorem applied at a concrete token; neither
secret value occurs among the written document's serialized strings. -/
theorem C8_dump_redacts_secrets_witness :
    ("secret-access" : String) ∉
      TokenDump.strings { access_token := "***", token_type := "Bearer",
                          refresh_token := "***", expiry := 0, idTokenClaims := "null" } ∧
    ("secret-refresh" : String) ∉
      TokenDump.strings { access_token := "***", token_type := "Bearer",
                          refresh_token := "***", expiry := 0, idTokenClaims := "null" } :=
  ⟨(C8_dump_redacts_secrets secretToken sampleIDToken
      { access_token := "***", token_type := "Bearer", refresh_token := "***",
        expiry := 0, idTokenClaims := "null" } (by decide)).2.2.1
    (by decide) (by decide) (by decide)
    (fun c hc => by
      have : c = "null" := by
        have h0 : sampleIDToken.claims = Except.ok "null" := rfl
        rw [h0] at hc
        exact (Except.ok.injEq _ _).mp hc.symm
      rw [this]; decide),
   (C8_dump_redacts_secrets secretToken sampleIDToken
      { access_token := "***", token_type := "Bearer", refresh_token := "***",
        expiry := 0, idTokenClaims := "null" } (by decide)).2.2.2
    (by decide) (by decide) (by decide)
    (fun c hc => by
      have : c = "null" := by
        have h0 : sampleIDToken.claims = Except.ok "null" := rfl
        rw [h0] at hc
        exact (Except.ok.injEq _ _).mp hc.symm
      rw [this]; decide)⟩
